import Mathlib

/-!
Verification development for the cf-redis-broker instance repository and
backup pipeline.

The embedding works over an explicit filesystem state: a list of existing
directories plus an association list from paths to file contents.  Paths are
lists of components (`path.Join` in the source becomes list append).

The backup pipeline (`backup/backup.go`) is embedded directly from the source,
with its external effects (object storage, redis control client, `os.Stat`,
`ioutil.ReadFile`) supplied by a `World` of oracles and an observable event
trace recording which steps ran, in order.

The local instance repository is embedded from the specification (its
implementation file is not part of the sources; only its test suite is), and
the test suite is used to pin down observable behaviour where it is explicit.
-/

set_option linter.all false

/-- Filesystem paths as lists of components. -/
abbrev FsPath := List String

/-- IO error kinds: `notExist` is the error for which `os.IsNotExist` holds. -/
inductive IOErr
  | notExist
  | other (msg : String)
  deriving DecidableEq, Repr

/-- Predicate mirroring Go `os.IsNotExist` on our error kinds. -/
def IOErr.isNotExist : IOErr → Bool
  | IOErr.notExist => true
  | IOErr.other _ => false

/-- Contents of an instance configuration file produced by the config merger:
the default template overlaid with the instance-specific overrides.  Modelled
from the spec: the configuration file is the authoritative Host/Port/Password
source and carries a server name derived from the instance id. -/
structure InstanceConf where
  template : String
  serverName : String
  host : String
  port : Nat
  password : String
  deriving DecidableEq, Repr

/-- A file on disk is either raw bytes or a merged instance configuration. -/
inductive FileData
  | raw (s : String)
  | conf (c : InstanceConf)
  deriving DecidableEq, Repr

/-- Explicit filesystem state. -/
structure FS where
  dirs : List FsPath
  files : List (FsPath × FileData)
  deriving DecidableEq, Repr

/-- Look an exact path up in the file association list. -/
def findFile : List (FsPath × FileData) → FsPath → Option FileData
  | [], _ => none
  | (q, d) :: rest, p => if q = p then some d else findFile rest p

/-- Write (create or fully replace) a file, leaving every other path alone. -/
def FS.writeFile (fs : FS) (p : FsPath) (d : FileData) : FS :=
  { fs with files := (p, d) :: fs.files.filter (fun f => !(f.1 == p)) }

/-- Boolean test that `p` is an ancestor of (or equal to) `q`. -/
def dirLe : FsPath → FsPath → Bool
  | [], _ => true
  | _ :: _, [] => false
  | a :: as, b :: bs => a == b && dirLe as bs

/-- All ancestors of a path, the path itself included. -/
def ancestors : FsPath → List FsPath
  | [] => [[]]
  | x :: xs => [] :: (ancestors xs).map (fun p => x :: p)

/-- Add one directory if it is not already present. -/
def FS.addDir (fs : FS) (p : FsPath) : FS :=
  if p ∈ fs.dirs then fs else { fs with dirs := fs.dirs ++ [p] }

/-- Go `os.MkdirAll`: create a directory together with all its ancestors;
idempotent when the directories already exist. -/
def FS.mkdirAll (fs : FS) (p : FsPath) : FS :=
  (ancestors p).foldl FS.addDir fs

/-- Go `os.RemoveAll`: drop a path and everything below it; succeeds (is a
no-op) when the path is already absent. -/
def FS.removeAll (fs : FS) (p : FsPath) : FS :=
  { dirs := fs.dirs.filter (fun d => !dirLe p d),
    files := fs.files.filter (fun f => !dirLe p f.1) }

/-- `some x` exactly when `d = p ++ [x]`, i.e. `d` is a direct child of `p`. -/
def childName : FsPath → FsPath → Option String
  | [], [x] => some x
  | a :: as, b :: bs => if a = b then childName as bs else none
  | _, _ => none

/-- Names of the direct subdirectories of `p`, in directory-listing order. -/
def FS.childDirs (fs : FS) (p : FsPath) : List String :=
  fs.dirs.filterMap (childName p)

/-- One tenant instance, reconstructed from disk on every read. -/
structure Instance where
  ID : String
  Host : String
  Port : Nat
  Password : String
  deriving DecidableEq, Repr

/-- Broker-side repository configuration (root paths). -/
structure ServiceConfiguration where
  Host : String
  DefaultConfigPath : FsPath
  InstanceDataDirectory : FsPath
  PidfileDirectory : FsPath
  InstanceLogDirectory : FsPath
  deriving DecidableEq, Repr

/-- The local instance repository: behaviour depends only on its configured
root paths. -/
structure LocalRepository where
  RedisConf : ServiceConfiguration
  deriving DecidableEq, Repr

/-- Base directory `<dataDir>/<id>` of an instance. -/
def LocalRepository.InstanceBaseDir (repo : LocalRepository) (instanceID : String) : FsPath :=
  repo.RedisConf.InstanceDataDirectory ++ [instanceID]

/-- Working directory `<dataDir>/<id>/db` of the data-store process. -/
def LocalRepository.InstanceDataDir (repo : LocalRepository) (instanceID : String) : FsPath :=
  repo.InstanceBaseDir instanceID ++ ["db"]

/-- Configuration file path `<dataDir>/<id>/redis.conf`. -/
def LocalRepository.InstanceConfigPath (repo : LocalRepository) (instanceID : String) : FsPath :=
  repo.InstanceBaseDir instanceID ++ ["redis.conf"]

/-- Log directory `<logDir>/<id>`. -/
def LocalRepository.InstanceLogDir (repo : LocalRepository) (instanceID : String) : FsPath :=
  repo.RedisConf.InstanceLogDirectory ++ [instanceID]

/-- Pid file path `<pidDir>/<id>.pid`. -/
def LocalRepository.InstancePidFilePath (repo : LocalRepository) (instanceID : String) : FsPath :=
  repo.RedisConf.PidfileDirectory ++ [instanceID ++ ".pid"]

/-- Modelled from the spec: `EnsureDirectoriesExist` idempotently creates the
instance data directory (including its `db` subdirectory) and the log
directory (the repository implementation is not among the sources). -/
def LocalRepository.EnsureDirectoriesExist (repo : LocalRepository) (fs : FS)
    (inst : Instance) : FS :=
  (fs.mkdirAll (repo.InstanceDataDir inst.ID)).mkdirAll (repo.InstanceLogDir inst.ID)

/-- Modelled from the spec: `WriteConfigFile` merges the default configuration
template with the instance-specific overrides and fully replaces the
instance's configuration file; it fails when the default template is
unreadable (absent) or is not template text (the repository implementation is
not among the sources). -/
def LocalRepository.WriteConfigFile (repo : LocalRepository) (fs : FS)
    (inst : Instance) : Except IOErr FS :=
  match findFile fs.files repo.RedisConf.DefaultConfigPath with
  | none => Except.error IOErr.notExist
  | some (FileData.conf _) => Except.error (IOErr.other "default config failed to parse")
  | some (FileData.raw template) =>
      Except.ok (fs.writeFile (repo.InstanceConfigPath inst.ID)
        (FileData.conf
          { template := template
            serverName := "redis-server-" ++ inst.ID
            host := inst.Host
            port := inst.Port
            password := inst.Password }))

/-- The write path exercised by the tests: ensure directories, then write the
configuration file. -/
def LocalRepository.writePath (repo : LocalRepository) (fs : FS)
    (inst : Instance) : Except IOErr FS :=
  repo.WriteConfigFile (repo.EnsureDirectoriesExist fs inst) inst

/-- Modelled from the spec: `FindByID` reconstructs an Instance by reading its
configuration file; a missing configuration file surfaces as the
filesystem's own not-found error (the repository implementation is not among
the sources). -/
def LocalRepository.FindByID (repo : LocalRepository) (fs : FS)
    (id : String) : Except IOErr Instance :=
  match findFile fs.files (repo.InstanceConfigPath id) with
  | none => Except.error IOErr.notExist
  | some (FileData.raw _) => Except.error (IOErr.other "invalid instance configuration")
  | some (FileData.conf c) =>
      Except.ok { ID := id, Host := c.host, Port := c.port, Password := c.password }

/-- Modelled from the spec: `InstanceExists` is true iff the configuration
file is present; simple absence is not an error (the repository
implementation is not among the sources). -/
def LocalRepository.InstanceExists (repo : LocalRepository) (fs : FS)
    (id : String) : Except IOErr Bool :=
  match findFile fs.files (repo.InstanceConfigPath id) with
  | none => Except.ok false
  | some _ => Except.ok true

/-- Filesystem state after deleting an instance: remove the base data
directory, the pid file and the log directory, each independently. -/
def LocalRepository.deleteFS (repo : LocalRepository) (fs : FS) (instanceID : String) : FS :=
  ((fs.removeAll (repo.InstanceBaseDir instanceID)).removeAll
      (repo.InstancePidFilePath instanceID)).removeAll (repo.InstanceLogDir instanceID)

/-- Modelled from the spec: `Delete` removes the three locations with
`RemoveAll` semantics, so no location is required to pre-exist and (absent a
permission model) it always reports success (the repository implementation is
not among the sources). -/
def LocalRepository.Delete (repo : LocalRepository) (fs : FS)
    (instanceID : String) : Except IOErr FS :=
  Except.ok (repo.deleteFS fs instanceID)

/-- Render a path the way log lines show it. -/
def renderPath (p : FsPath) : String := "/" ++ String.intercalate "/" p

/-- Start-of-scan log line of the verbose enumeration. -/
def startScanMsg (repo : LocalRepository) : String :=
  "Starting shared instance lookup in data directory: " ++
    renderPath repo.RedisConf.InstanceDataDirectory

/-- Per-found-instance log line of the verbose enumeration. -/
def foundInstanceMsg (id : String) : String := "Found shared instance: " ++ id

/-- Per-error log line emitted when reconstructing one instance fails. -/
def instanceErrorMsg (id : String) : String :=
  "Error getting instance details for instance ID: " ++ id

/-- Count-summary log line of the verbose enumeration. -/
def instanceCountMsg (n : Nat) : String :=
  toString n ++ " shared Redis instance" ++ (if n = 1 then "" else "s") ++ " found"

/-- Log line emitted when the data directory itself cannot be listed. -/
def scanFailedMsg : String := "Error finding shared instances"

/-- Success side of a reconstruction attempt. -/
def okOf : Except IOErr Instance → Option Instance
  | Except.ok i => some i
  | Except.error _ => none

/-- Error side of a reconstruction attempt. -/
def errOf : Except IOErr Instance → Option IOErr
  | Except.ok _ => none
  | Except.error e => some e

/-- Modelled from the spec and the test suite: the silent scan attempts
`FindByID` on every entry, accumulating successes and one error per failed
entry; per-error detail lines are logged even by the non-verbose variant
(visible in the test suite). -/
def scanInstances (repo : LocalRepository) (fs : FS) :
    List String → (List Instance × List IOErr) × List String
  | [] => (([], []), [])
  | id :: rest =>
    let r := scanInstances repo fs rest
    match repo.FindByID fs id with
    | Except.ok i => ((i :: r.1.1, r.1.2), r.2)
    | Except.error e => ((r.1.1, e :: r.1.2), instanceErrorMsg id :: r.2)

/-- Modelled from the spec: the verbose scan performs the identical
accumulation and additionally logs one line per found instance. -/
def scanInstancesVerbose (repo : LocalRepository) (fs : FS) :
    List String → (List Instance × List IOErr) × List String
  | [] => (([], []), [])
  | id :: rest =>
    let r := scanInstancesVerbose repo fs rest
    match repo.FindByID fs id with
    | Except.ok i => ((i :: r.1.1, r.1.2), foundInstanceMsg id :: r.2)
    | Except.error e => ((r.1.1, e :: r.1.2), instanceErrorMsg id :: r.2)

/-- Modelled from the spec: `AllInstances` enumerates the subdirectories of
the data directory and scans them silently (apart from error detail lines);
a listing failure yields one error (the repository implementation is not
among the sources).  The second component is the emitted log. -/
def LocalRepository.AllInstances (repo : LocalRepository) (fs : FS) :
    (List Instance × List IOErr) × List String :=
  if repo.RedisConf.InstanceDataDirectory ∈ fs.dirs then
    scanInstances repo fs (fs.childDirs repo.RedisConf.InstanceDataDirectory)
  else
    (([], [IOErr.other "data directory listing failed"]), [scanFailedMsg])

/-- Modelled from the spec: `AllInstancesVerbose` performs the identical scan
and additionally logs the start-of-scan line, per-instance lines and the
count summary (the repository implementation is not among the sources). -/
def LocalRepository.AllInstancesVerbose (repo : LocalRepository) (fs : FS) :
    (List Instance × List IOErr) × List String :=
  if repo.RedisConf.InstanceDataDirectory ∈ fs.dirs then
    let r := scanInstancesVerbose repo fs (fs.childDirs repo.RedisConf.InstanceDataDirectory)
    (r.1, startScanMsg repo :: r.2 ++ [instanceCountMsg r.1.1.length])
  else
    (([], [IOErr.other "data directory listing failed"]), [startScanMsg repo, scanFailedMsg])

/-! Backup pipeline, embedded from `backup/backup.go`. -/

/-- A redis configuration as handled by the external `redisconf` collaborator:
key/value pairs with `Set` replacing a key. -/
def RedisConf := List (String × String)
deriving instance DecidableEq, Repr for RedisConf

/-- `redisconf.Set`: overwrite (or add) one key. -/
def RedisConf.set (c : RedisConf) (k v : String) : RedisConf :=
  (k, v) :: c.filter (fun kv => !(kv.1 == k))

/-- An object-storage bucket handle as returned by `GetOrCreate`. -/
structure Bucket where
  name : String
  deriving DecidableEq, Repr

/-- Errors that `os.Stat` can report. -/
inductive StatErr
  | errExist
  | errNotExist
  | errOther (msg : String)
  deriving DecidableEq, Repr

/-- Go `os.IsExist` on a stat error. -/
def StatErr.isExistErr : StatErr → Bool
  | StatErr.errExist => true
  | StatErr.errNotExist => false
  | StatErr.errOther _ => false

/-- Observable steps of one `Backup.Create` run, in execution order. -/
inductive Ev
  | getOrCreateBucket
  | loadConf
  | readPortFile
  | readPasswordFile
  | connect
  | createSnapshot
  | statRdb
  | logSkip
  | readRdb
  | logBackingUp
  | upload (contents remotePath : String)
  deriving DecidableEq, Repr

/-- Oracles for the external effects `Backup.Create` performs.  File reads and
stats are indexed by path; connecting is indexed by host and the configuration
handed over; uploading by bucket, payload and remote path. -/
structure World where
  bucketRes : Except String Bucket
  loadConf : String → Except String RedisConf
  readFile : String → Except String String
  connectRes : String → RedisConf → Except String Unit
  createSnapshotCmd : Nat → Except String Unit
  stat : String → Option StatErr
  upload : Bucket → String → String → Except String Unit

/-- `brokerconfig` backup section (field names as in the source). -/
structure BackupConfiguration where
  EndpointUrl : String
  S3Region : String
  AccessKeyId : String
  SecretAccessKey : String
  BucketName : String
  Path : String
  BGSaveTimeoutSeconds : Nat
  deriving DecidableEq, Repr

/-- `brokerconfig` redis section (only the fields the backup uses). -/
structure RedisConfigurationC where
  Host : String
  BackupConfiguration : BackupConfiguration
  deriving DecidableEq, Repr

/-- `brokerconfig.Config` (only the fields the backup uses). -/
structure BrokerConfig where
  RedisConfiguration : RedisConfigurationC
  deriving DecidableEq, Repr

/-- The backup pipeline value (the logger is modelled by the event trace). -/
structure Backup where
  Config : BrokerConfig
  deriving DecidableEq, Repr

/-- `fileExists` from the source: `_, err := os.Stat(path); return err == nil
|| os.IsExist(err)`. -/
def fileExists (w : World) (p : String) : Bool :=
  match w.stat p with
  | none => true
  | some e => e.isExistErr

/-- `Backup.buildRedisClient`: load `redis.conf` from the instance path,
overlay the `port` and `requirepass` sidecar values, then connect.  Returns
the configuration the client was connected with, plus the event trace. -/
def Backup.buildRedisClient (b : Backup) (w : World) (instancePath : String) :
    Except String RedisConf × List Ev :=
  match w.loadConf (instancePath ++ "/redis.conf") with
  | Except.error e => (Except.error e, [Ev.loadConf])
  | Except.ok instanceConf =>
    match w.readFile (instancePath ++ "/redis-server.port") with
    | Except.error e => (Except.error e, [Ev.loadConf, Ev.readPortFile])
    | Except.ok port =>
      match w.readFile (instancePath ++ "/redis-server.password") with
      | Except.error e => (Except.error e, [Ev.loadConf, Ev.readPortFile, Ev.readPasswordFile])
      | Except.ok password =>
        let conf := (instanceConf.set "port" port).set "requirepass" password
        match w.connectRes b.Config.RedisConfiguration.Host conf with
        | Except.error e =>
            (Except.error e, [Ev.loadConf, Ev.readPortFile, Ev.readPasswordFile, Ev.connect])
        | Except.ok _ =>
            (Except.ok conf, [Ev.loadConf, Ev.readPortFile, Ev.readPasswordFile, Ev.connect])

/-- `Backup.createSnapshot`: build the client, then issue the synchronous
snapshot command with the configured timeout. -/
def Backup.createSnapshot (b : Backup) (w : World) (instancePath : String) :
    Except String Unit × List Ev :=
  let r := b.buildRedisClient w instancePath
  match r.1 with
  | Except.error e => (Except.error e, r.2)
  | Except.ok _ =>
    match w.createSnapshotCmd b.Config.RedisConfiguration.BackupConfiguration.BGSaveTimeoutSeconds with
    | Except.error e => (Except.error e, r.2 ++ [Ev.createSnapshot])
    | Except.ok _ => (Except.ok (), r.2 ++ [Ev.createSnapshot])

/-- `Backup.uploadToS3`: read the artifact fully, log, then upload its exact
bytes to `<configured-prefix>/<instanceID>`. -/
def Backup.uploadToS3 (b : Backup) (w : World) (instanceID pathToRdbFile : String)
    (bucket : Bucket) : Except String Unit × List Ev :=
  match w.readFile pathToRdbFile with
  | Except.error e => (Except.error e, [Ev.readRdb])
  | Except.ok rdbBytes =>
    let remotePath := b.Config.RedisConfiguration.BackupConfiguration.Path ++ "/" ++ instanceID
    (w.upload bucket rdbBytes remotePath,
      [Ev.readRdb, Ev.logBackingUp, Ev.upload rdbBytes remotePath])

/-- `Backup.Create` from the source: get-or-create the bucket, snapshot, check
for the artifact at `<instancePath>/db/dump.rdb`, skip (success) when it is
absent, otherwise read and upload it. -/
def Backup.create (b : Backup) (w : World) (instancePath instanceID : String) :
    Except String Unit × List Ev :=
  match w.bucketRes with
  | Except.error e => (Except.error e, [Ev.getOrCreateBucket])
  | Except.ok bucket =>
    let s := b.createSnapshot w instancePath
    match s.1 with
    | Except.error e => (Except.error e, Ev.getOrCreateBucket :: s.2)
    | Except.ok _ =>
      let pathToRdbFile := instancePath ++ "/db/dump.rdb"
      if fileExists w pathToRdbFile then
        let u := b.uploadToS3 w instanceID pathToRdbFile bucket
        (u.1, Ev.getOrCreateBucket :: s.2 ++ [Ev.statRdb] ++ u.2)
      else
        (Except.ok (), Ev.getOrCreateBucket :: s.2 ++ [Ev.statRdb, Ev.logSkip])

/-- The failure cases of loading the configuration or reading a sidecar file,
with the error produced. -/
def confOrSidecarReadFails (w : World) (instancePath : String) (e : String) : Prop :=
  w.loadConf (instancePath ++ "/redis.conf") = Except.error e ∨
  (∃ c, w.loadConf (instancePath ++ "/redis.conf") = Except.ok c ∧
    w.readFile (instancePath ++ "/redis-server.port") = Except.error e) ∨
  (∃ c prt, w.loadConf (instancePath ++ "/redis.conf") = Except.ok c ∧
    w.readFile (instancePath ++ "/redis-server.port") = Except.ok prt ∧
    w.readFile (instancePath ++ "/redis-server.password") = Except.error e)

/-! Concrete fixtures used by the witnesses. -/

/-- Repository configuration used by the concrete witnesses. -/
def sconfW : ServiceConfiguration :=
  { Host := "127.0.0.1"
    DefaultConfigPath := ["tmp", "default"]
    InstanceDataDirectory := ["data"]
    PidfileDirectory := ["pid"]
    InstanceLogDirectory := ["log"] }

/-- Concrete repository value. -/
def repoW : LocalRepository := { RedisConf := sconfW }

/-- Empty pool: roots and the default template only. -/
def fs0 : FS :=
  { dirs := [[], ["data"], ["log"], ["pid"], ["tmp"]]
    files := [(["tmp", "default"], FileData.raw "daemonize yes")] }

/-- Concrete instance written by the witnesses. -/
def instW : Instance :=
  { ID := "a", Host := "127.0.0.1", Port := 8080, Password := "secret" }

/-- Filesystem after writing `instW` into the empty pool. -/
def fsRT : FS :=
  match repoW.writePath fs0 instW with
  | Except.ok fs => fs
  | Except.error _ => fs0

/-- `fsRT` with a data file seeded inside the instance's `db` directory. -/
def fsSeeded : FS :=
  fsRT.writeFile (repoW.InstanceDataDir "a" ++ ["appendonly.aof"]) (FileData.raw "DATA FILE")

/-- Filesystem after re-running the write path on the seeded state. -/
def fsRewritten : FS :=
  match repoW.writePath fsSeeded instW with
  | Except.ok fs => fs
  | Except.error _ => fsSeeded

/-- The configuration-file contents the write path produces for `instW`. -/
def confW : InstanceConf :=
  { template := "daemonize yes"
    serverName := "redis-server-a"
    host := "127.0.0.1"
    port := 8080
    password := "secret" }

/-- A pool of three provisioned instances of which `c` has lost its
configuration file. -/
def fs3 : FS :=
  { dirs := [[], ["data"], ["log"], ["pid"], ["tmp"],
             ["data", "a"], ["data", "a", "db"],
             ["data", "b"], ["data", "b", "db"],
             ["data", "c"], ["data", "c", "db"],
             ["log", "a"], ["log", "b"], ["log", "c"]]
    files := [(["tmp", "default"], FileData.raw "daemonize yes"),
              (["data", "a", "redis.conf"], FileData.conf confW),
              (["data", "b", "redis.conf"],
                FileData.conf { confW with serverName := "redis-server-b", port := 8081 }),
              (["pid", "a.pid"], FileData.raw "1234")] }

/-- Concrete broker configuration for the backup witnesses. -/
def brokerConfigW : BrokerConfig :=
  { RedisConfiguration :=
      { Host := "127.0.0.1"
        BackupConfiguration :=
          { EndpointUrl := "http://s3url.com"
            S3Region := "france"
            AccessKeyId := "ak"
            SecretAccessKey := "sk"
            BucketName := "redis-backups"
            Path := "backups"
            BGSaveTimeoutSeconds := 600 } } }

/-- Concrete backup pipeline value. -/
def backupW : Backup := { Config := brokerConfigW }

/-- Concrete bucket handle. -/
def bucketW : Bucket := { name := "redis-backups" }

/-- Happy-path world: every step succeeds and the artifact holds "RDB". -/
def wHappy : World :=
  { bucketRes := Except.ok bucketW
    loadConf := fun _ => Except.ok [("daemonize", "yes")]
    readFile := fun p => if p = "inst/db/dump.rdb" then Except.ok "RDB" else Except.ok "x"
    connectRes := fun _ _ => Except.ok ()
    createSnapshotCmd := fun _ => Except.ok ()
    stat := fun _ => none
    upload := fun _ _ _ => Except.ok () }

/-- World in which bucket get-or-create fails. -/
def wBucketFail : World := { wHappy with bucketRes := Except.error "no bucket" }

/-- World in which the artifact is reported missing by `os.Stat`. -/
def wNoArtifact : World := { wHappy with stat := fun _ => some StatErr.errNotExist }

/-- World in which `os.Stat` on the artifact fails with a permission error. -/
def wStatDenied : World :=
  { wHappy with stat := fun _ => some (StatErr.errOther "permission denied") }

/-! Helper lemmas about the filesystem model. -/

theorem findFile_writeFile_self (fs : FS) (p : FsPath) (d : FileData) :
    findFile (fs.writeFile p d).files p = some d := by
  simp [FS.writeFile, findFile]

theorem findFile_filter_ne (l : List (FsPath × FileData)) (p q : FsPath) (h : q ≠ p) :
    findFile (l.filter (fun f => !(f.1 == p))) q = findFile l q := by
  induction l with
  | nil => rfl
  | cons f rest ih =>
    rcases f with ⟨fp, fd⟩
    by_cases hf : fp = p
    · subst hf
      have hpq : fp ≠ q := fun hh => h hh.symm
      simp [List.filter_cons, findFile, hpq, ih]
    · by_cases hq : fp = q <;> simp [List.filter_cons, findFile, hf, hq, ih, h]

theorem findFile_writeFile_ne (fs : FS) (p q : FsPath) (d : FileData) (h : q ≠ p) :
    findFile (fs.writeFile p d).files q = findFile fs.files q := by
  show findFile ((p, d) :: fs.files.filter (fun f => !(f.1 == p))) q = findFile fs.files q
  rw [findFile, if_neg (fun hh => h hh.symm), findFile_filter_ne _ _ _ h]

theorem addDir_files (fs : FS) (p : FsPath) : (fs.addDir p).files = fs.files := by
  unfold FS.addDir; split <;> rfl

theorem foldl_addDir_files (l : List FsPath) (fs : FS) :
    (l.foldl FS.addDir fs).files = fs.files := by
  induction l generalizing fs with
  | nil => rfl
  | cons p rest ih => rw [List.foldl_cons, ih, addDir_files]

theorem mkdirAll_files (fs : FS) (p : FsPath) : (fs.mkdirAll p).files = fs.files :=
  foldl_addDir_files (ancestors p) fs

theorem ensureDirectoriesExist_files (repo : LocalRepository) (fs : FS) (inst : Instance) :
    (repo.EnsureDirectoriesExist fs inst).files = fs.files := by
  unfold LocalRepository.EnsureDirectoriesExist
  rw [mkdirAll_files, mkdirAll_files]

theorem scanInstances_characterization (repo : LocalRepository) (fs : FS) (ids : List String) :
    (scanInstances repo fs ids).1.1 = ids.filterMap (fun id => okOf (repo.FindByID fs id)) ∧
    (scanInstances repo fs ids).1.2 = ids.filterMap (fun id => errOf (repo.FindByID fs id)) ∧
    (scanInstances repo fs ids).2 = ids.filterMap (fun id =>
      match repo.FindByID fs id with
      | Except.ok _ => none
      | Except.error _ => some (instanceErrorMsg id)) := by
  induction ids with
  | nil => exact ⟨rfl, rfl, rfl⟩
  | cons id rest ih =>
    cases hf : repo.FindByID fs id with
    | ok i => simp [scanInstances, hf, okOf, errOf, ih.1, ih.2.1, ih.2.2]
    | error e => simp [scanInstances, hf, okOf, errOf, ih.1, ih.2.1, ih.2.2]

theorem scanInstancesVerbose_characterization (repo : LocalRepository) (fs : FS)
    (ids : List String) :
    (scanInstancesVerbose repo fs ids).1 = (scanInstances repo fs ids).1 ∧
    (scanInstancesVerbose repo fs ids).2 = ids.map (fun id =>
      match repo.FindByID fs id with
      | Except.ok _ => foundInstanceMsg id
      | Except.error _ => instanceErrorMsg id) := by
  induction ids with
  | nil => exact ⟨rfl, rfl⟩
  | cons id rest ih =>
    cases hf : repo.FindByID fs id with
    | ok i => simp [scanInstances, scanInstancesVerbose, hf, ih.1, ih.2]
    | error e => simp [scanInstances, scanInstancesVerbose, hf, ih.1, ih.2]

theorem okOf_ok (i : Instance) : okOf (Except.ok i) = some i := rfl

theorem okOf_error (e : IOErr) : okOf (Except.error e) = none := rfl

theorem errOf_ok (i : Instance) : errOf (Except.ok i) = none := rfl

theorem errOf_error (e : IOErr) : errOf (Except.error e) = some e := rfl

theorem length_okOf_add_errOf (repo : LocalRepository) (fs : FS) (ids : List String) :
    (ids.filterMap (fun id => okOf (repo.FindByID fs id))).length +
      (ids.filterMap (fun id => errOf (repo.FindByID fs id))).length = ids.length := by
  induction ids with
  | nil => rfl
  | cons id rest ih =>
    cases hf : repo.FindByID fs id with
    | ok i =>
      simp only [List.filterMap_cons, hf, okOf_ok, errOf_ok, List.length_cons]
      omega
    | error e =>
      simp only [List.filterMap_cons, hf, okOf_error, errOf_error, List.length_cons]
      omega

/-- C1: for every pool whose data directory can be listed, `AllInstances`
returns exactly the successfully reconstructed instances (in listing order)
together with one error per failed entry, so k failures leave the other n-k
instances in the result: no single bad instance removes any other. -/
theorem allInstances_partial_failure_isolation (repo : LocalRepository) (fs : FS)
    (h : repo.RedisConf.InstanceDataDirectory ∈ fs.dirs) :
    (repo.AllInstances fs).1.1 =
      (fs.childDirs repo.RedisConf.InstanceDataDirectory).filterMap
        (fun id => okOf (repo.FindByID fs id)) ∧
    (repo.AllInstances fs).1.2 =
      (fs.childDirs repo.RedisConf.InstanceDataDirectory).filterMap
        (fun id => errOf (repo.FindByID fs id)) ∧
    (repo.AllInstances fs).1.1.length + (repo.AllInstances fs).1.2.length =
      (fs.childDirs repo.RedisConf.InstanceDataDirectory).length := by
  have hc := scanInstances_characterization repo fs
    (fs.childDirs repo.RedisConf.InstanceDataDirectory)
  have hall : repo.AllInstances fs =
      scanInstances repo fs (fs.childDirs repo.RedisConf.InstanceDataDirectory) := by
    unfold LocalRepository.AllInstances
    rw [if_pos h]
  rw [hall]
  refine ⟨hc.1, hc.2.1, ?_⟩
  rw [hc.1, hc.2.1]
  exact length_okOf_add_errOf repo fs (fs.childDirs repo.RedisConf.InstanceDataDirectory)

/-- Witness for C1: three provisioned instances of which exactly one has lost
its configuration file yield two instances and one error. -/
theorem allInstances_partial_failure_isolation_witness :
    repoW.RedisConf.InstanceDataDirectory ∈ fs3.dirs ∧
    (repoW.AllInstances fs3).1.1.length + (repoW.AllInstances fs3).1.2.length =
      (fs3.childDirs repoW.RedisConf.InstanceDataDirectory).length :=
  ⟨by decide, (allInstances_partial_failure_isolation repoW fs3 (by decide)).2.2⟩

/-- C2: running the write path (`EnsureDirectoriesExist` then
`WriteConfigFile`) and then `FindByID` on the same id returns an Instance
whose ID, Host, Port and Password equal those written. -/
theorem findByID_roundtrip (repo : LocalRepository) (fs fs' : FS) (inst : Instance)
    (h : repo.writePath fs inst = Except.ok fs') :
    repo.FindByID fs' inst.ID =
      Except.ok { ID := inst.ID, Host := inst.Host, Port := inst.Port,
                  Password := inst.Password } := by
  unfold LocalRepository.writePath LocalRepository.WriteConfigFile at h
  rw [ensureDirectoriesExist_files] at h
  cases hf : findFile fs.files repo.RedisConf.DefaultConfigPath with
  | none => rw [hf] at h; exact absurd h (by simp)
  | some fd =>
    cases fd with
    | conf c => rw [hf] at h; exact absurd h (by simp)
    | raw t =>
      rw [hf] at h
      injection h with h2
      subst h2
      simp [LocalRepository.FindByID, findFile_writeFile_self]

/-- Witness for C2: the concrete round trip on `instW`. -/
theorem findByID_roundtrip_witness :
    repoW.writePath fs0 instW = Except.ok fsRT ∧
    repoW.FindByID fsRT instW.ID =
      Except.ok { ID := instW.ID, Host := instW.Host, Port := instW.Port,
                  Password := instW.Password } :=
  ⟨rfl, findByID_roundtrip repoW fs0 fsRT instW rfl⟩

/-- C3: re-running the write path on an existing instance leaves every
pre-existing file inside the instance's data or log directory unchanged,
while the configuration file itself is fully replaced by the freshly merged
configuration. -/
theorem writePath_preserves_existing_files (repo : LocalRepository) (fs fs' : FS)
    (inst : Instance) (p : FsPath) (d : FileData) (t : String)
    (hw : repo.writePath fs inst = Except.ok fs')
    (ht : findFile fs.files repo.RedisConf.DefaultConfigPath = some (FileData.raw t))
    (hloc : dirLe (repo.InstanceDataDir inst.ID) p = true ∨
      dirLe (repo.InstanceLogDir inst.ID) p = true)
    (hne : p ≠ repo.InstanceConfigPath inst.ID)
    (hd : findFile fs.files p = some d) :
    findFile fs'.files p = some d ∧
    findFile fs'.files (repo.InstanceConfigPath inst.ID) =
      some (FileData.conf
        { template := t, serverName := "redis-server-" ++ inst.ID,
          host := inst.Host, port := inst.Port, password := inst.Password }) := by
  unfold LocalRepository.writePath LocalRepository.WriteConfigFile at hw
  rw [ensureDirectoriesExist_files, ht] at hw
  injection hw with hw2
  subst hw2
  constructor
  · rw [findFile_writeFile_ne _ _ _ _ hne, ensureDirectoriesExist_files]
    exact hd
  · exact findFile_writeFile_self _ _ _

/-- Witness for C3: the seeded `appendonly.aof` survives a second write. -/
theorem writePath_preserves_existing_files_witness :
    repoW.writePath fsSeeded instW = Except.ok fsRewritten ∧
    findFile fsSeeded.files repoW.RedisConf.DefaultConfigPath =
      some (FileData.raw "daemonize yes") ∧
    dirLe (repoW.InstanceDataDir instW.ID)
      (repoW.InstanceDataDir "a" ++ ["appendonly.aof"]) = true ∧
    findFile fsRewritten.files (repoW.InstanceDataDir "a" ++ ["appendonly.aof"]) =
      some (FileData.raw "DATA FILE") ∧
    findFile fsRewritten.files (repoW.InstanceConfigPath instW.ID) =
      some (FileData.conf confW) :=
  ⟨rfl, rfl, by decide,
    (writePath_preserves_existing_files repoW fsSeeded fsRewritten instW
      (repoW.InstanceDataDir "a" ++ ["appendonly.aof"]) (FileData.raw "DATA FILE")
      "daemonize yes" rfl rfl (Or.inl (by decide)) (by decide) rfl).1,
    (writePath_preserves_existing_files repoW fsSeeded fsRewritten instW
      (repoW.InstanceDataDir "a" ++ ["appendonly.aof"]) (FileData.raw "DATA FILE")
      "daemonize yes" rfl rfl (Or.inl (by decide)) (by decide) rfl).2⟩

/-- C7: `Delete` succeeds on every filesystem state (so re-running it on an
already-deleted id still succeeds), and afterwards nothing remains at or
below any of the three locations: the instance base data directory, the pid
file, and the log directory. -/
theorem delete_removes_all_locations (repo : LocalRepository) (fs : FS) (id : String)
    (q : FsPath) (d : FileData) :
    repo.Delete fs id = Except.ok (repo.deleteFS fs id) ∧
    (dirLe (repo.InstanceBaseDir id) q = true →
      q ∉ (repo.deleteFS fs id).dirs ∧ (q, d) ∉ (repo.deleteFS fs id).files) ∧
    (dirLe (repo.InstancePidFilePath id) q = true →
      q ∉ (repo.deleteFS fs id).dirs ∧ (q, d) ∉ (repo.deleteFS fs id).files) ∧
    (dirLe (repo.InstanceLogDir id) q = true →
      q ∉ (repo.deleteFS fs id).dirs ∧ (q, d) ∉ (repo.deleteFS fs id).files) := by
  refine ⟨rfl, fun hq => ⟨?_, ?_⟩, fun hq => ⟨?_, ?_⟩, fun hq => ⟨?_, ?_⟩⟩ <;>
    simp [LocalRepository.deleteFS, FS.removeAll, List.mem_filter, hq]

/-- Witness for C7: deleting the concrete instance `a` removes its base
directory, and `Delete` reports success. -/
theorem delete_removes_all_locations_witness :
    repoW.Delete fsRT "a" = Except.ok (repoW.deleteFS fsRT "a") ∧
    (["data", "a"] : FsPath) ∉ (repoW.deleteFS fsRT "a").dirs :=
  ⟨(delete_removes_all_locations repoW fsRT "a" ["data", "a"] (FileData.raw "x")).1,
   ((delete_removes_all_locations repoW fsRT "a" ["data", "a"] (FileData.raw "x")).2.1
     (by decide)).1⟩

/-- C8: when the configuration file of an id is absent, `FindByID` fails with
the filesystem's own "does not exist" error kind (`os.IsNotExist` holds for
it), while `InstanceExists` returns false with no error. -/
theorem findByID_missing_config (repo : LocalRepository) (fs : FS) (id : String)
    (h : findFile fs.files (repo.InstanceConfigPath id) = none) :
    repo.FindByID fs id = Except.error IOErr.notExist ∧
    IOErr.notExist.isNotExist = true ∧
    repo.InstanceExists fs id = Except.ok false := by
  refine ⟨?_, rfl, ?_⟩ <;> simp [LocalRepository.FindByID, LocalRepository.InstanceExists, h]

/-- Witness for C8: the concrete pool `fs3` has no configuration for `c`. -/
theorem findByID_missing_config_witness :
    findFile fs3.files (repoW.InstanceConfigPath "c") = none ∧
    repoW.FindByID fs3 "c" = Except.error IOErr.notExist ∧
    repoW.InstanceExists fs3 "c" = Except.ok false :=
  ⟨rfl, (findByID_missing_config repoW fs3 "c" rfl).1,
    (findByID_missing_config repoW fs3 "c" rfl).2.2⟩

/-- Counterexample to C9 as stated: the claim says the non-verbose variant
emits none of the scan log lines (start-of-scan, per-instance, per-error,
count summary), but the test suite pins down that `AllInstances` does log the
per-error detail line, which this concrete pool exhibits. -/
theorem allInstances_emits_error_detail_line :
    instanceErrorMsg "c" ∈ (repoW.AllInstances fs3).2 := by decide

/-- C9 (amended): `AllInstances` and `AllInstancesVerbose` return the same
instances and the same errors; the verbose variant emits the start-of-scan
line, one per-instance or per-error line for every entry, and the count
summary, while the non-verbose variant emits exactly the per-error detail
lines and none of the start-of-scan, per-instance or count lines. -/
theorem allInstancesVerbose_refinement (repo : LocalRepository) (fs : FS) :
    (repo.AllInstancesVerbose fs).1 = (repo.AllInstances fs).1 ∧
    (repo.RedisConf.InstanceDataDirectory ∈ fs.dirs →
      (repo.AllInstances fs).2 =
        (fs.childDirs repo.RedisConf.InstanceDataDirectory).filterMap (fun id =>
          match repo.FindByID fs id with
          | Except.ok _ => none
          | Except.error _ => some (instanceErrorMsg id)) ∧
      (repo.AllInstancesVerbose fs).2 =
        startScanMsg repo ::
          ((fs.childDirs repo.RedisConf.InstanceDataDirectory).map (fun id =>
            match repo.FindByID fs id with
            | Except.ok _ => foundInstanceMsg id
            | Except.error _ => instanceErrorMsg id) ++
          [instanceCountMsg (repo.AllInstances fs).1.1.length])) := by
  by_cases h : repo.RedisConf.InstanceDataDirectory ∈ fs.dirs
  · have hv := scanInstancesVerbose_characterization repo fs
      (fs.childDirs repo.RedisConf.InstanceDataDirectory)
    have hs := scanInstances_characterization repo fs
      (fs.childDirs repo.RedisConf.InstanceDataDirectory)
    refine ⟨?_, fun _ => ⟨?_, ?_⟩⟩
    · simp [LocalRepository.AllInstances, LocalRepository.AllInstancesVerbose, h, hv.1]
    · simp [LocalRepository.AllInstances, h, hs.2.2]
    · simp [LocalRepository.AllInstances, LocalRepository.AllInstancesVerbose, h, hv.1, hv.2]
  · refine ⟨?_, fun hh => absurd hh h⟩
    simp [LocalRepository.AllInstances, LocalRepository.AllInstancesVerbose, h]

/-- Witness for C9 (amended): the refinement at the concrete three-instance
pool. -/
theorem allInstancesVerbose_refinement_witness :
    (repoW.AllInstancesVerbose fs3).1 = (repoW.AllInstances fs3).1 ∧
    (repoW.AllInstancesVerbose fs3).2 =
      startScanMsg repoW ::
        ((fs3.childDirs repoW.RedisConf.InstanceDataDirectory).map (fun id =>
          match repoW.FindByID fs3 id with
          | Except.ok _ => foundInstanceMsg id
          | Except.error _ => instanceErrorMsg id) ++
        [instanceCountMsg (repoW.AllInstances fs3).1.1.length]) :=
  ⟨(allInstancesVerbose_refinement repoW fs3).1,
   ((allInstancesVerbose_refinement repoW fs3).2 (by decide)).2⟩

/-! Helper lemmas about the backup pipeline traces. -/

theorem buildRedisClient_trace_cases (b : Backup) (w : World) (ip : String) :
    (b.buildRedisClient w ip).2 = [Ev.loadConf] ∨
    (b.buildRedisClient w ip).2 = [Ev.loadConf, Ev.readPortFile] ∨
    (b.buildRedisClient w ip).2 = [Ev.loadConf, Ev.readPortFile, Ev.readPasswordFile] ∨
    (b.buildRedisClient w ip).2 =
      [Ev.loadConf, Ev.readPortFile, Ev.readPasswordFile, Ev.connect] := by
  cases hl : w.loadConf (ip ++ "/redis.conf") with
  | error e => simp [Backup.buildRedisClient, hl]
  | ok c0 =>
    cases hp : w.readFile (ip ++ "/redis-server.port") with
    | error e => simp [Backup.buildRedisClient, hl, hp]
    | ok prt =>
      cases hpw : w.readFile (ip ++ "/redis-server.password") with
      | error e => simp [Backup.buildRedisClient, hl, hp, hpw]
      | ok pw =>
        cases hcn : w.connectRes b.Config.RedisConfiguration.Host
            ((c0.set "port" prt).set "requirepass" pw) with
        | error e => simp [Backup.buildRedisClient, hl, hp, hpw, hcn]
        | ok u => simp [Backup.buildRedisClient, hl, hp, hpw, hcn]

theorem not_mem_buildTrace (b : Backup) (w : World) (ip : String) (ev : Ev)
    (h1 : ev ≠ Ev.loadConf) (h2 : ev ≠ Ev.readPortFile) (h3 : ev ≠ Ev.readPasswordFile)
    (h4 : ev ≠ Ev.connect) : ev ∉ (b.buildRedisClient w ip).2 := by
  rcases buildRedisClient_trace_cases b w ip with ht | ht | ht | ht <;>
    rw [ht] <;> simp [h1, h2, h3, h4]

theorem createSnapshot_trace_cases (b : Backup) (w : World) (ip : String) :
    (b.createSnapshot w ip).2 = (b.buildRedisClient w ip).2 ∨
    (b.createSnapshot w ip).2 = (b.buildRedisClient w ip).2 ++ [Ev.createSnapshot] := by
  cases hr : (b.buildRedisClient w ip).1 with
  | error e => simp [Backup.createSnapshot, hr]
  | ok c =>
    cases hs : w.createSnapshotCmd
        b.Config.RedisConfiguration.BackupConfiguration.BGSaveTimeoutSeconds with
    | error e => simp [Backup.createSnapshot, hr, hs]
    | ok u => simp [Backup.createSnapshot, hr, hs]

theorem not_mem_snapTrace (b : Backup) (w : World) (ip : String) (ev : Ev)
    (h1 : ev ≠ Ev.loadConf) (h2 : ev ≠ Ev.readPortFile) (h3 : ev ≠ Ev.readPasswordFile)
    (h4 : ev ≠ Ev.connect) (h5 : ev ≠ Ev.createSnapshot) :
    ev ∉ (b.createSnapshot w ip).2 := by
  have hb := not_mem_buildTrace b w ip ev h1 h2 h3 h4
  rcases createSnapshot_trace_cases b w ip with ht | ht <;> rw [ht] <;> simp [hb, h5]

/-- C5: when the snapshot artifact does not exist after the snapshot command
succeeds, `Create` logs a skip notice and returns success, and the upload
step is never invoked. -/
theorem backup_create_skips_missing_artifact (b : Backup) (w : World) (ip iid : String)
    (bucket : Bucket) (hb : w.bucketRes = Except.ok bucket)
    (hs : (b.createSnapshot w ip).1 = Except.ok ())
    (hstat : w.stat (ip ++ "/db/dump.rdb") = some StatErr.errNotExist) :
    (Backup.create b w ip iid).1 = Except.ok () ∧
    Ev.logSkip ∈ (Backup.create b w ip iid).2 ∧
    ∀ bs rp, Ev.upload bs rp ∉ (Backup.create b w ip iid).2 := by
  have hf : fileExists w (ip ++ "/db/dump.rdb") = false := by
    simp [fileExists, hstat, StatErr.isExistErr]
  have hcr : Backup.create b w ip iid =
      (Except.ok (), Ev.getOrCreateBucket :: (b.createSnapshot w ip).2 ++
        [Ev.statRdb, Ev.logSkip]) := by
    simp [Backup.create, hb, hs, hf]
  rw [hcr]
  refine ⟨rfl, by simp, fun bs rp => ?_⟩
  have hsnap := not_mem_snapTrace b w ip (Ev.upload bs rp)
    (by simp) (by simp) (by simp) (by simp) (by simp)
  simp [hsnap]

/-- Witness for C5: the concrete world whose artifact stat says not-exist. -/
theorem backup_create_skips_missing_artifact_witness :
    wNoArtifact.bucketRes = Except.ok bucketW ∧
    (backupW.createSnapshot wNoArtifact "inst").1 = Except.ok () ∧
    wNoArtifact.stat ("inst" ++ "/db/dump.rdb") = some StatErr.errNotExist ∧
    (Backup.create backupW wNoArtifact "inst" "abc").1 = Except.ok () ∧
    Ev.logSkip ∈ (Backup.create backupW wNoArtifact "inst" "abc").2 :=
  ⟨rfl, rfl, rfl,
   (backup_create_skips_missing_artifact backupW wNoArtifact "inst" "abc" bucketW
     rfl rfl rfl).1,
   (backup_create_skips_missing_artifact backupW wNoArtifact "inst" "abc" bucketW
     rfl rfl rfl).2.1⟩

/-- C6: on the happy path, `Create` uploads the artifact's exact bytes to the
deterministic remote path `<configured-prefix>/<instanceID>`, returning the
upload's result. -/
theorem backup_create_uploads_artifact (b : Backup) (w : World) (ip iid : String)
    (bucket : Bucket) (bs : String)
    (hb : w.bucketRes = Except.ok bucket)
    (hs : (b.createSnapshot w ip).1 = Except.ok ())
    (hstat : w.stat (ip ++ "/db/dump.rdb") = none)
    (hread : w.readFile (ip ++ "/db/dump.rdb") = Except.ok bs) :
    (Backup.create b w ip iid).1 =
      w.upload bucket bs (b.Config.RedisConfiguration.BackupConfiguration.Path ++ "/" ++ iid) ∧
    Ev.upload bs (b.Config.RedisConfiguration.BackupConfiguration.Path ++ "/" ++ iid) ∈
      (Backup.create b w ip iid).2 := by
  have hf : fileExists w (ip ++ "/db/dump.rdb") = true := by simp [fileExists, hstat]
  constructor <;> simp [Backup.create, Backup.uploadToS3, hb, hs, hf, hread]

/-- Witness for C6: the happy-path world uploads "RDB" to "backups/abc". -/
theorem backup_create_uploads_artifact_witness :
    wHappy.bucketRes = Except.ok bucketW ∧
    wHappy.readFile ("inst" ++ "/db/dump.rdb") = Except.ok "RDB" ∧
    Ev.upload "RDB"
        (backupW.Config.RedisConfiguration.BackupConfiguration.Path ++ "/" ++ "abc") ∈
      (Backup.create backupW wHappy "inst" "abc").2 :=
  ⟨rfl, rfl,
   (backup_create_uploads_artifact backupW wHappy "inst" "abc" bucketW "RDB"
     rfl rfl rfl rfl).2⟩

/-- C10: a stat failure on the artifact path that is neither success nor an
"already exists" error (for example permission denied) makes `fileExists`
report false, so `Create` treats the artifact as absent, logs the skip
notice, and returns success without reading or uploading anything. -/
theorem backup_create_absorbs_stat_errors (b : Backup) (w : World) (ip iid : String)
    (bucket : Bucket) (m : String)
    (hb : w.bucketRes = Except.ok bucket)
    (hs : (b.createSnapshot w ip).1 = Except.ok ())
    (hstat : w.stat (ip ++ "/db/dump.rdb") = some (StatErr.errOther m)) :
    (Backup.create b w ip iid).1 = Except.ok () ∧
    Ev.logSkip ∈ (Backup.create b w ip iid).2 ∧
    Ev.readRdb ∉ (Backup.create b w ip iid).2 ∧
    ∀ bs rp, Ev.upload bs rp ∉ (Backup.create b w ip iid).2 := by
  have hf : fileExists w (ip ++ "/db/dump.rdb") = false := by
    simp [fileExists, hstat, StatErr.isExistErr]
  have hcr : Backup.create b w ip iid =
      (Except.ok (), Ev.getOrCreateBucket :: (b.createSnapshot w ip).2 ++
        [Ev.statRdb, Ev.logSkip]) := by
    simp [Backup.create, hb, hs, hf]
  rw [hcr]
  refine ⟨rfl, by simp, ?_, fun bs rp => ?_⟩
  · have hsnap := not_mem_snapTrace b w ip Ev.readRdb
      (by simp) (by simp) (by simp) (by simp) (by simp)
    simp [hsnap]
  · have hsnap := not_mem_snapTrace b w ip (Ev.upload bs rp)
      (by simp) (by simp) (by simp) (by simp) (by simp)
    simp [hsnap]

/-- Witness for C10: the concrete world whose artifact stat is permission
denied. -/
theorem backup_create_absorbs_stat_errors_witness :
    wStatDenied.stat ("inst" ++ "/db/dump.rdb") = some (StatErr.errOther "permission denied") ∧
    (Backup.create backupW wStatDenied "inst" "abc").1 = Except.ok () ∧
    Ev.readRdb ∉ (Backup.create backupW wStatDenied "inst" "abc").2 :=
  ⟨rfl,
   (backup_create_absorbs_stat_errors backupW wStatDenied "inst" "abc" bucketW
     "permission denied" rfl rfl rfl).1,
   (backup_create_absorbs_stat_errors backupW wStatDenied "inst" "abc" bucketW
     "permission denied" rfl rfl rfl).2.2.1⟩

theorem snapTrace_nodup (b : Backup) (w : World) (ip : String) :
    (b.createSnapshot w ip).2.Nodup := by
  rcases createSnapshot_trace_cases b w ip with ht | ht <;>
    rcases buildRedisClient_trace_cases b w ip with h1 | h1 | h1 | h1 <;>
      rw [ht, h1] <;> decide

/-- C4: the error-producing steps of `Backup.Create` occur in a fixed order:
a bucket get-or-create failure is returned before any data-store connection
is attempted; a configuration or sidecar read failure is returned before the
snapshot command is issued; a snapshot command failure is returned before the
artifact is read; afterwards an artifact read or upload failure is the only
remaining error; and no step is retried (the event trace has no duplicates). -/
theorem backup_create_failure_ordering (b : Backup) (w : World) (ip iid : String) :
    (∀ e, w.bucketRes = Except.error e →
      (Backup.create b w ip iid).1 = Except.error e ∧
        Ev.connect ∉ (Backup.create b w ip iid).2) ∧
    (∀ e bucket, w.bucketRes = Except.ok bucket → confOrSidecarReadFails w ip e →
      (Backup.create b w ip iid).1 = Except.error e ∧
        Ev.createSnapshot ∉ (Backup.create b w ip iid).2) ∧
    (∀ e bucket c, w.bucketRes = Except.ok bucket →
      (b.buildRedisClient w ip).1 = Except.ok c →
      w.createSnapshotCmd b.Config.RedisConfiguration.BackupConfiguration.BGSaveTimeoutSeconds =
        Except.error e →
      (Backup.create b w ip iid).1 = Except.error e ∧
        Ev.readRdb ∉ (Backup.create b w ip iid).2 ∧
        ∀ bs rp, Ev.upload bs rp ∉ (Backup.create b w ip iid).2) ∧
    (∀ e bucket c, w.bucketRes = Except.ok bucket →
      (b.buildRedisClient w ip).1 = Except.ok c →
      w.createSnapshotCmd b.Config.RedisConfiguration.BackupConfiguration.BGSaveTimeoutSeconds =
        Except.ok () →
      (Backup.create b w ip iid).1 = Except.error e →
      w.readFile (ip ++ "/db/dump.rdb") = Except.error e ∨
        ∃ bs, w.readFile (ip ++ "/db/dump.rdb") = Except.ok bs ∧
          w.upload bucket bs
            (b.Config.RedisConfiguration.BackupConfiguration.Path ++ "/" ++ iid) =
            Except.error e) ∧
    (Backup.create b w ip iid).2.Nodup := by
  refine ⟨?_, ?_, ?_, ?_, ?_⟩
  · intro e he
    constructor <;> simp [Backup.create, he]
  · intro e bucket hb hfail
    have hbuild : (b.buildRedisClient w ip).1 = Except.error e := by
      rcases hfail with h1 | ⟨c, hc, h2⟩ | ⟨c, prt, hc, hp2, h3⟩ <;>
        simp [Backup.buildRedisClient, *]
    have hcs : b.createSnapshot w ip = (Except.error e, (b.buildRedisClient w ip).2) := by
      simp [Backup.createSnapshot, hbuild]
    have hnm := not_mem_buildTrace b w ip Ev.createSnapshot
      (by simp) (by simp) (by simp) (by simp)
    constructor <;> simp [Backup.create, hb, hcs, hnm]
  · intro e bucket c hb hc hsn
    have hcs : b.createSnapshot w ip =
        (Except.error e, (b.buildRedisClient w ip).2 ++ [Ev.createSnapshot]) := by
      simp [Backup.createSnapshot, hc, hsn]
    have hnr := not_mem_buildTrace b w ip Ev.readRdb (by simp) (by simp) (by simp) (by simp)
    refine ⟨?_, ?_, fun bs rp => ?_⟩
    · simp [Backup.create, hb, hcs]
    · simp [Backup.create, hb, hcs, hnr]
    · have hnu := not_mem_buildTrace b w ip (Ev.upload bs rp)
        (by simp) (by simp) (by simp) (by simp)
      simp [Backup.create, hb, hcs, hnu]
  · intro e bucket c hb hc hsn hres
    have hcs : b.createSnapshot w ip =
        (Except.ok (), (b.buildRedisClient w ip).2 ++ [Ev.createSnapshot]) := by
      simp [Backup.createSnapshot, hc, hsn]
    by_cases hf : fileExists w (ip ++ "/db/dump.rdb")
    · cases hr : w.readFile (ip ++ "/db/dump.rdb") with
      | error e2 =>
        left
        have hcr : (Backup.create b w ip iid).1 = Except.error e2 := by
          simp [Backup.create, Backup.uploadToS3, hb, hcs, hf, hr]
        have he2 := hcr.symm.trans hres
        injection he2 with he3
        rw [he3]
      | ok bs =>
        right
        refine ⟨bs, rfl, ?_⟩
        have hcr : (Backup.create b w ip iid).1 =
            w.upload bucket bs
              (b.Config.RedisConfiguration.BackupConfiguration.Path ++ "/" ++ iid) := by
          simp [Backup.create, Backup.uploadToS3, hb, hcs, hf, hr]
        rw [← hcr]
        exact hres
    · exfalso
      have hcr : (Backup.create b w ip iid).1 = Except.ok () := by
        simp [Backup.create, hb, hcs, hf]
      rw [hcr] at hres
      exact absurd hres (by simp)
  · cases hb : w.bucketRes with
    | error e => simp [Backup.create, hb]
    | ok bucket =>
      have hn := snapTrace_nodup b w ip
      have hg := not_mem_snapTrace b w ip Ev.getOrCreateBucket
        (by simp) (by simp) (by simp) (by simp) (by simp)
      have hst := not_mem_snapTrace b w ip Ev.statRdb
        (by simp) (by simp) (by simp) (by simp) (by simp)
      have hsk := not_mem_snapTrace b w ip Ev.logSkip
        (by simp) (by simp) (by simp) (by simp) (by simp)
      have hrr := not_mem_snapTrace b w ip Ev.readRdb
        (by simp) (by simp) (by simp) (by simp) (by simp)
      have hlb := not_mem_snapTrace b w ip Ev.logBackingUp
        (by simp) (by simp) (by simp) (by simp) (by simp)
      cases hcs1 : (b.createSnapshot w ip).1 with
      | error e => simp [Backup.create, hb, hcs1, List.nodup_cons, hn, hg]
      | ok u =>
        by_cases hf : fileExists w (ip ++ "/db/dump.rdb")
        · cases hr : w.readFile (ip ++ "/db/dump.rdb") with
          | error e2 =>
            simp [Backup.create, Backup.uploadToS3, hb, hcs1, hf, hr,
              List.nodup_cons, List.nodup_append, List.mem_append, hn, hg, hst, hrr]
          | ok bs =>
            have hup := not_mem_snapTrace b w ip
              (Ev.upload bs (b.Config.RedisConfiguration.BackupConfiguration.Path ++ "/" ++ iid))
              (by simp) (by simp) (by simp) (by simp) (by simp)
            simp [Backup.create, Backup.uploadToS3, hb, hcs1, hf, hr,
              List.nodup_cons, List.nodup_append, List.mem_append, hn, hg, hst, hrr, hlb, hup]
        · simp [Backup.create, hb, hcs1, hf, List.nodup_cons, List.nodup_append,
            List.mem_append, hn, hg, hst, hsk]

/-- Witness for C4: in the world whose bucket provisioning fails, `Create`
returns that error and the trace holds no connect step; and the happy-path
trace has no duplicate steps. -/
theorem backup_create_failure_ordering_witness :
    wBucketFail.bucketRes = Except.error "no bucket" ∧
    (Backup.create backupW wBucketFail "inst" "abc").1 = Except.error "no bucket" ∧
    Ev.connect ∉ (Backup.create backupW wBucketFail "inst" "abc").2 ∧
    (Backup.create backupW wHappy "inst" "abc").2.Nodup :=
  ⟨rfl,
   ((backup_create_failure_ordering backupW wBucketFail "inst" "abc").1 "no bucket" rfl).1,
   ((backup_create_failure_ordering backupW wBucketFail "inst" "abc").1 "no bucket" rfl).2,
   (backup_create_failure_ordering backupW wHappy "inst" "abc").2.2.2.2⟩
